import Mathlib

/-!
# SmartFarm simulator hardware configuration header

A verification development for `packages/simulator/hardware/config.h`, the
build-time configuration of the ESP32 sensor node (gas-sensor and RFID-reader
variants).  The header is a list of object-like `#define` directives behind an
include guard.

The development has three layers.

* `config_h` is the text of the header, one string per source line.
* A small model of the C preprocessor (comment removal, directive recognition,
  conditional inclusion, the macro table) turns that text into the list of
  macro definitions a translation unit sees after `#include "config.h"`.
* Every macro of the header is also given as a Lean constant of the same name;
  the lemma `config_h_defines` ties the constants to what the preprocessor
  reads from the text.
-/

namespace SmartFarm

/-! ## The header text -/

/-- The text of `config.h`, one entry per source line (98 lines, no final
newline). -/
def config_h : List String := [
  "/**",
  " * Configuration File",
  " * ",
  " * Copy this file and customize for your deployment",
  " * ",
  " * IMPORTANT: Never commit this file with real credentials!",
  " */",
  "",
  "#ifndef CONFIG_H",
  "#define CONFIG_H",
  "",
  "// ============================================",
  "// WiFi Configuration",
  "// ============================================",
  "#define WIFI_SSID \"YOUR_WIFI_SSID\"",
  "#define WIFI_PASSWORD \"YOUR_WIFI_PASSWORD\"",
  "",
  "// ============================================",
  "// MQTT Broker Configuration",
  "// ============================================",
  "#define MQTT_SERVER \"192.168.1.100\"  // IP address of your MQTT broker",
  "#define MQTT_PORT 1883",
  "#define MQTT_USER \"\"                  // Leave empty if no authentication",
  "#define MQTT_PASSWORD \"\"",
  "",
  "// ============================================",
  "// Device Configuration",
  "// ============================================",
  "// Gas Sensor Device",
  "#define DEVICE_ID \"GAS-001\"          // Unique device ID (change for each device)",
  "#define BARN_ID \"BARN-001\"           // Barn assignment",
  "",
  "// RFID Reader Device",
  "// #define DEVICE_ID \"RFID-READER-001\"",
  "// #define BARN_ID \"BARN-001\"",
  "",
  "// ============================================",
  "// Gas Sensor Pin Configuration (ESP32)",
  "// ============================================",
  "#define MQ4_PIN 34      // GPIO 34 (ADC1_CH6) - Methane sensor",
  "#define MQ135_PIN 35    // GPIO 35 (ADC1_CH7) - CO2 sensor",
  "#define MQ137_PIN 32    // GPIO 32 (ADC1_CH4) - NH3 sensor",
  "#define DHT_PIN 4       // GPIO 4 - DHT22 Temperature & Humidity",
  "",
  "// ============================================",
  "// RFID Reader Pin Configuration (ESP32)",
  "// ============================================",
  "#define RFID_SDA_PIN 21   // GPIO 21 - SDA/SS",
  "#define RFID_RST_PIN 22   // GPIO 22 - RST",
  "#define RFID_SCK_PIN 18   // GPIO 18 - SCK",
  "#define RFID_MOSI_PIN 23  // GPIO 23 - MOSI",
  "#define RFID_MISO_PIN 19  // GPIO 19 - MISO",
  "",
  "// LED and Buzzer Pins",
  "#define LED_GREEN_PIN 25  // GPIO 25 - Success indicator",
  "#define LED_RED_PIN 26    // GPIO 26 - Error indicator",
  "#define BUZZER_PIN 27     // GPIO 27 - Audio feedback",
  "",
  "// ============================================",
  "// Timing Configuration",
  "// ============================================",
  "#define READING_INTERVAL 10000     // 10 seconds - sensor reading interval",
  "#define HEARTBEAT_INTERVAL 30000   // 30 seconds - heartbeat interval",
  "#define RECONNECT_DELAY 5000       // 5 seconds - reconnection delay",
  "",
  "// ============================================",
  "// Sensor Calibration (Gas Sensors)",
  "// ============================================",
  "// Adjust these values based on your sensor calibration",
  "// Calibrate in clean air and measure R0 resistance",
  "#define MQ4_R0 10.0      // Resistance in clean air (kΩ)",
  "#define MQ135_R0 10.0    // Resistance in clean air (kΩ)",
  "#define MQ137_R0 10.0    // Resistance in clean air (kΩ)",
  "",
  "// ============================================",
  "// Advanced Configuration",
  "// ============================================",
  "// Enable debug output",
  "#define DEBUG_MODE true",
  "",
  "// NTP Server for time synchronization (optional)",
  "#define NTP_SERVER \"pool.ntp.org\"",
  "#define GMT_OFFSET_SEC 0",
  "#define DAYLIGHT_OFFSET_SEC 0",
  "",
  "// Watchdog timer (milliseconds)",
  "#define WATCHDOG_TIMEOUT 60000  // 60 seconds",
  "",
  "// MQTT QoS levels",
  "#define MQTT_QOS_SENSOR 1       // QoS for sensor readings",
  "#define MQTT_QOS_STATUS 1       // QoS for status messages",
  "#define MQTT_QOS_HEARTBEAT 0    // QoS for heartbeat (can be 0)",
  "",
  "// Buffer sizes",
  "#define JSON_BUFFER_SIZE 512",
  "#define MQTT_BUFFER_SIZE 512",
  "",
  "#endif // CONFIG_H"
]

/-! ## Characters -/

/-- The double quote character. -/
def dquote : Char := Char.ofNat 34

/-- The single quote character. -/
def squote : Char := Char.ofNat 39

/-- The backslash character. -/
def backslash : Char := Char.ofNat 92

/-- Horizontal white space inside a line: space and tab. -/
def isBlank (c : Char) : Bool := c = ' ' || c = Char.ofNat 9

/-- Characters of a C identifier. -/
def isIdentChar (c : Char) : Bool := c.isAlphanum || c = '_'

/-- Drop leading blanks. -/
def skipBlanks (cs : List Char) : List Char := cs.dropWhile isBlank

/-- Drop leading and trailing blanks. -/
def trimBlanks (cs : List Char) : List Char :=
  (skipBlanks (skipBlanks cs).reverse).reverse

/-- Split off the longest identifier prefix. -/
def takeIdent (cs : List Char) : List Char × List Char :=
  (cs.takeWhile isIdentChar, cs.dropWhile isIdentChar)

/-! ## Comment removal

Comments are removed before directives are recognised: a `//` comment runs to
the end of its line, a `/* */` comment may span lines, each comment counts as
one space, and comment openers inside string literals and character constants
are ordinary text.  A block comment that runs over the end of a line joins
the lines it spans into one logical line.  Line splicing with a trailing
backslash is not modelled (the header has no backslash). -/

/-- Mode of the comment scanner. -/
inductive Lex where
  /-- Ordinary program text. -/
  | code
  /-- Program text, a `/` has been read and is held back. -/
  | slash
  /-- Inside a string literal. -/
  | str
  /-- Inside a string literal, after a backslash. -/
  | strEsc
  /-- Inside a character constant. -/
  | chr
  /-- Inside a character constant, after a backslash. -/
  | chrEsc
  /-- Inside a `//` comment. -/
  | line
  /-- Inside a `/* */` comment. -/
  | block
  /-- Inside a `/* */` comment, after a `*`. -/
  | blockStar
  deriving DecidableEq, Repr

/-- Scan one character: the next mode and the characters passed on. -/
def lexStep : Lex → Char → Lex × List Char
  | .code, c =>
      if c = '/' then (.slash, [])
      else if c = dquote then (.str, [c])
      else if c = squote then (.chr, [c])
      else (.code, [c])
  | .slash, c =>
      if c = '/' then (.line, [' '])
      else if c = '*' then (.block, [' '])
      else if c = dquote then (.str, ['/', c])
      else if c = squote then (.chr, ['/', c])
      else (.code, ['/', c])
  | .str, c =>
      if c = backslash then (.strEsc, [c])
      else if c = dquote then (.code, [c])
      else (.str, [c])
  | .strEsc, c => (.str, [c])
  | .chr, c =>
      if c = backslash then (.chrEsc, [c])
      else if c = squote then (.code, [c])
      else (.chr, [c])
  | .chrEsc, c => (.chr, [c])
  | .line, _ => (.line, [])
  | .block, c => if c = '*' then (.blockStar, []) else (.block, [])
  | .blockStar, c =>
      if c = '/' then (.code, [])
      else if c = '*' then (.blockStar, [])
      else (.block, [])

/-- End of a source line: a held-back `/` is passed on, a `//` comment and an
unterminated literal end, a block comment stays open. -/
def lexEol : Lex → Lex × List Char
  | .slash => (.code, ['/'])
  | .block => (.block, [])
  | .blockStar => (.block, [])
  | _ => (.code, [])

/-- Remove the comments of one line, starting in mode `m`: the mode in which
the next line starts, and the line without its comments. -/
def stripLine : Lex → List Char → Lex × List Char
  | m, [] => lexEol m
  | m, c :: cs =>
      let r := stripLine (lexStep m c).1 cs
      (r.1, (lexStep m c).2 ++ r.2)

/-! ## Directives -/

/-- A line after comment removal, as the preprocessor reads it. -/
inductive Directive where
  /-- The directive `#define name body` (object-like). -/
  | define (name body : String)
  /-- The directive `#undef name`. -/
  | undef (name : String)
  /-- The directive `#ifdef name`. -/
  | ifdef (name : String)
  /-- The directive `#ifndef name`. -/
  | ifndef (name : String)
  /-- The directive `#else`. -/
  | else_
  /-- The directive `#endif`. -/
  | endif
  /-- The null directive, a `#` alone on its line. -/
  | null
  /-- Any other directive (`#include`, `#if`, `#elif`, `#pragma`, a
  function-like `#define`, ...), which this model does not interpret. -/
  | unsupported (keyword : String)
  /-- A line that is not a directive. -/
  | text
  deriving DecidableEq, Repr

/-- Recognise the directive on a line whose comments are removed. -/
def parseDirective (cs : List Char) : Directive :=
  match skipBlanks cs with
  | [] => .text
  | c :: rest =>
    if c = '#' then
      let kw := takeIdent (skipBlanks rest)
      let arg := takeIdent (skipBlanks kw.2)
      let keyword := String.mk kw.1
      let name := String.mk arg.1
      if keyword = "" then
        if kw.2 = [] then .null else .unsupported keyword
      else if keyword = "else" then .else_
      else if keyword = "endif" then .endif
      else if name = "" then .unsupported keyword
      else if keyword = "define" then
        if arg.2.head? = some '(' then .unsupported keyword
        else .define name (String.mk (trimBlanks arg.2))
      else if keyword = "undef" then .undef name
      else if keyword = "ifdef" then .ifdef name
      else if keyword = "ifndef" then .ifndef name
      else .unsupported keyword
    else .text

/-! ## Conditional inclusion and the macro table -/

/-- An open conditional group (`#ifdef` / `#ifndef` ... `#else` ... `#endif`). -/
structure Cond where
  /-- The lines of the current group are included. -/
  active : Bool
  /-- The lines of the `#else` group, if one follows, are included. -/
  elseActive : Bool
  /-- The `#else` of this conditional has been read. -/
  seenElse : Bool
  deriving DecidableEq, Repr

/-- An object-like macro definition read from a file. -/
structure MacroDef where
  /-- Source line of the `#define`, counted from 1. -/
  line : Nat
  /-- Name of the macro. -/
  name : String
  /-- Replacement list, as text without surrounding blanks. -/
  body : String
  deriving DecidableEq, Repr

/-- State of the preprocessor between two lines. -/
structure PPState where
  /-- Mode of the comment scanner at the start of the next line. -/
  lex : Lex
  /-- Number of the next line, counted from 1. -/
  lineNo : Nat
  /-- A logical line that a block comment carries over the end of a source
  line: the number of its first source line and its text so far. -/
  pending : Option (Nat × List Char)
  /-- Open conditionals, innermost first. -/
  conds : List Cond
  /-- Macros defined at this point, oldest first. -/
  macros : List MacroDef
  /-- Every `#define` executed so far, in order. -/
  defines : List MacroDef
  deriving DecidableEq, Repr

/-- State at the start of a translation unit in which the macros `ms` are
already defined. -/
def PPState.init (ms : List MacroDef) : PPState :=
  { lex := .code, lineNo := 1, pending := none, conds := [], macros := ms, defines := [] }

/-- The lines at this point are included, not skipped. -/
def PPState.including (st : PPState) : Bool :=
  match st.conds with
  | [] => true
  | c :: _ => c.active

/-- The macro `name` is defined at this point. -/
def PPState.isDefined (st : PPState) (name : String) : Bool :=
  st.macros.any fun m => m.name = name

/-- Open a conditional whose condition has the value `b`. -/
def PPState.pushCond (st : PPState) (b : Bool) : PPState :=
  if st.including then
    { st with conds := { active := b, elseActive := !b, seenElse := false } :: st.conds }
  else
    { st with conds := { active := false, elseActive := false, seenElse := false } :: st.conds }

/-- Execute the directive of a logical line that starts on source line `ln`.
`none` is a translation error: an `#else` or `#endif` without an open
conditional, a second `#else`, the redefinition of a macro with a different
replacement list, or a directive outside this model in an included group. -/
def PPState.exec (st : PPState) (ln : Nat) : Directive → Option PPState
  | .text => some st
  | .null => some st
  | .ifdef n => some (st.pushCond (st.isDefined n))
  | .ifndef n => some (st.pushCond (!st.isDefined n))
  | .else_ =>
      match st.conds with
      | [] => none
      | c :: cs =>
          if c.seenElse then none
          else some { st with
            conds := { active := c.elseActive, elseActive := false, seenElse := true } :: cs }
  | .endif =>
      match st.conds with
      | [] => none
      | _ :: cs => some { st with conds := cs }
  | .define n b =>
      if st.including then
        let d : MacroDef := { line := ln, name := n, body := b }
        if st.macros.any fun m => m.name = n && m.body != b then none
        else some { st with
          macros := (st.macros.filter fun m => m.name != n) ++ [d],
          defines := st.defines ++ [d] }
      else some st
  | .undef n =>
      if st.including then
        some { st with macros := st.macros.filter fun m => m.name != n }
      else some st
  | .unsupported kw =>
      if st.including then none
      else if kw = "if" then some (st.pushCond false)
      else if kw = "elif" then
        match st.conds with
        | [] => none
        | c :: _ => if c.elseActive || c.seenElse then none else some st
      else some st

/-- Process one source line.  A line that ends inside a block comment is not
complete: its text is kept and the next line continues it. -/
def PPState.step (st : PPState) (l : String) : Option PPState :=
  let r := stripLine st.lex l.data
  let start := (st.pending.getD (st.lineNo, [])).1
  let text := (st.pending.getD (st.lineNo, [])).2 ++ r.2
  if r.1 = .block then
    some { st with lex := .block, lineNo := st.lineNo + 1, pending := some (start, text) }
  else
    (PPState.exec { st with lex := r.1, pending := none } start (parseDirective text)).map
      fun st1 => { st1 with lineNo := st.lineNo + 1 }

/-- Process the lines of a file in order. -/
def PPState.run (st : PPState) : List String → Option PPState
  | [] => some st
  | l :: ls =>
      match st.step l with
      | none => none
      | some st1 => st1.run ls

/-- Preprocess a file in a translation unit where the macros `ms` are already
defined.  At the end of the file every conditional must be closed and no
block comment may be open. -/
def preprocess (ms : List MacroDef) (file : List String) : Option PPState :=
  match (PPState.init ms).run file with
  | none => none
  | some st => if st.conds = [] ∧ st.lex = .code then some st else none

/-- The `#define` directives that are executed when the file is included for
the first time, in source order. -/
def activeDefines (file : List String) : Option (List MacroDef) :=
  (preprocess [] file).map PPState.defines

/-! ## Values of the replacement lists -/

/-- The constant a replacement list denotes, for the forms the header uses. -/
inductive Value where
  /-- An empty replacement list. -/
  | empty
  /-- A decimal integer constant. -/
  | int (n : Int)
  /-- A decimal floating constant `digits / 10 ^ scale`. -/
  | real (digits scale : Nat)
  /-- A string literal without escape sequences. -/
  | str (s : String)
  /-- One of the words `true` and `false`. -/
  | bool (b : Bool)
  deriving DecidableEq, Repr

/-- Value of a sequence of decimal digits, `none` if a character is not a
digit. -/
def digitsValue : Nat → List Char → Option Nat
  | acc, [] => some acc
  | acc, c :: cs =>
      if c.isDigit then digitsValue (10 * acc + (c.toNat - 48)) cs else none

/-- Read a replacement list as a constant.  An integer constant with a leading
zero (octal in C) is read only when it is `0` itself. -/
def parseValue (body : String) : Option Value :=
  let cs := body.data
  if cs = [] then some .empty
  else if body = "true" then some (.bool true)
  else if body = "false" then some (.bool false)
  else if cs.head? = some dquote then
    let inner := (cs.drop 1).dropLast
    if cs.length ≥ 2 ∧ cs.getLast? = some dquote
        ∧ ¬ dquote ∈ inner ∧ ¬ backslash ∈ inner then
      some (.str (String.mk inner))
    else none
  else
    let whole := cs.takeWhile Char.isDigit
    let rest := cs.dropWhile Char.isDigit
    if whole = [] then none
    else if rest = [] then
      if cs.head? = some '0' ∧ cs.length ≥ 2 then none
      else (digitsValue 0 whole).map fun n => .int n
    else if rest.head? = some '.' ∧ rest.length ≥ 2 then
      (digitsValue 0 (whole ++ rest.drop 1)).map fun n => .real n (rest.length - 1)
    else none

/-- Read the replacement list of every definition. -/
def parseDefines : List MacroDef → Option (List (String × Value))
  | [] => some []
  | d :: ds =>
      match parseValue d.body, parseDefines ds with
      | some v, some vs => some ((d.name, v) :: vs)
      | _, _ => none

/-- The named constants a file defines on first inclusion, in source order. -/
def configValues (file : List String) : Option (List (String × Value)) :=
  (activeDefines file).bind parseDefines

/-- The constant the file gives the macro `name`, if it defines it. -/
def macroValue (file : List String) (name : String) : Option Value :=
  (configValues file).bind fun vs => (vs.find? fun p => p.1 = name).map Prod.snd

/-- The text that follows the first occurrence of `pat`. -/
def afterInfix (pat : List Char) : List Char → Option (List Char)
  | [] => if pat = [] then some [] else none
  | c :: cs =>
      if pat.isPrefixOf (c :: cs) then some ((c :: cs).drop pat.length)
      else afterInfix pat cs

/-- The ADC1 channel that the comment on the `#define` line of the macro
`name` gives for it, written `ADC1_CHn`. -/
def documentedAdc1Channel (file : List String) (name : String) : Option Nat :=
  (activeDefines file).bind fun ds =>
  (ds.find? fun d => d.name = name).bind fun d =>
  file[d.line - 1]?.bind fun l =>
  (afterInfix "ADC1_CH".data l.data).bind fun r =>
    let ds := r.takeWhile Char.isDigit
    if ds = [] then none else digitsValue 0 ds

/-- The file defines the macros `names`, each exactly as the integer constant
at the same position of `vals`. -/
@[reducible] def definesInts (file : List String) (names : List String)
    (vals : List Int) : Prop :=
  names.map (macroValue file) = vals.map fun v => some (Value.int v)

/-- The file defines the macros `names`, each exactly as the string literal at
the same position of `vals`. -/
@[reducible] def definesStrings (file : List String) (names : List String)
    (vals : List String) : Prop :=
  names.map (macroValue file) = vals.map fun v => some (Value.str v)

/-- The definitions whose `#define` stands on one of the lines `lo` to `hi`. -/
def definesBetween (ds : List MacroDef) (lo hi : Nat) : List MacroDef :=
  ds.filter fun d => lo ≤ d.line && d.line ≤ hi

/-- The file with `f` applied to source line `n`, counted from 1. -/
def editLine (f : String → String) : Nat → List String → List String
  | _, [] => []
  | 0, ls => ls
  | 1, l :: ls => f l :: ls
  | n + 2, l :: ls => l :: editLine f (n + 1) ls

/-- Remove the comment opener `// ` at the start of a line. -/
def uncomment (l : String) : String :=
  if "// ".data.isPrefixOf l.data then String.mk (l.data.drop 3) else l

/-- The constants of a file whose macro name ends in `_PIN`, in source
order. -/
def pinValues (file : List String) : Option (List (String × Value)) :=
  (configValues file).map fun vs =>
    vs.filter fun p => "_PIN".data.isSuffixOf p.1.data

/-! ## The constants of the header

Each macro of `config.h` as a constant of the same name.  Integer constants
have the C type `int`; every one of them is far below `2 ^ 31`. -/

-- WiFi configuration (lines 15-16)
def WIFI_SSID : String := "YOUR_WIFI_SSID"
def WIFI_PASSWORD : String := "YOUR_WIFI_PASSWORD"

-- MQTT broker configuration (lines 21-24)
def MQTT_SERVER : String := "192.168.1.100"
def MQTT_PORT : Int := 1883
def MQTT_USER : String := ""
def MQTT_PASSWORD : String := ""

-- Device configuration, gas sensor device (lines 30-31)
def DEVICE_ID : String := "GAS-001"
def BARN_ID : String := "BARN-001"

-- Gas sensor pin configuration (lines 40-43)
def MQ4_PIN : Int := 34
def MQ135_PIN : Int := 35
def MQ137_PIN : Int := 32
def DHT_PIN : Int := 4

-- RFID reader pin configuration (lines 48-52)
def RFID_SDA_PIN : Int := 21
def RFID_RST_PIN : Int := 22
def RFID_SCK_PIN : Int := 18
def RFID_MOSI_PIN : Int := 23
def RFID_MISO_PIN : Int := 19

-- LED and buzzer pins (lines 55-57)
def LED_GREEN_PIN : Int := 25
def LED_RED_PIN : Int := 26
def BUZZER_PIN : Int := 27

-- Timing configuration, milliseconds (lines 62-64)
def READING_INTERVAL : Int := 10000
def HEARTBEAT_INTERVAL : Int := 30000
def RECONNECT_DELAY : Int := 5000

-- Sensor calibration, kilo-ohm (lines 71-73)
def MQ4_R0 : ℚ := 10.0
def MQ135_R0 : ℚ := 10.0
def MQ137_R0 : ℚ := 10.0

-- Advanced configuration (lines 79-84)
def DEBUG_MODE : Bool := true
def NTP_SERVER : String := "pool.ntp.org"
def GMT_OFFSET_SEC : Int := 0
def DAYLIGHT_OFFSET_SEC : Int := 0

-- Watchdog timer, milliseconds (line 87)
def WATCHDOG_TIMEOUT : Int := 60000

-- MQTT QoS levels (lines 90-92)
def MQTT_QOS_SENSOR : Int := 1
def MQTT_QOS_STATUS : Int := 1
def MQTT_QOS_HEARTBEAT : Int := 0

-- Buffer sizes, bytes (lines 95-96)
def JSON_BUFFER_SIZE : Int := 512
def MQTT_BUFFER_SIZE : Int := 512

/-- The number a decimal floating constant denotes. -/
def decimal (digits scale : Nat) : ℚ := digits / 10 ^ scale

/-- The name and constant of every macro the header defines, in source order,
the include guard first.  The floating constant `10.0` of the three
calibration macros appears as its digits `100` and scale `1`. -/
def configTable : List (String × Value) := [
  ("CONFIG_H", .empty),
  ("WIFI_SSID", .str WIFI_SSID),
  ("WIFI_PASSWORD", .str WIFI_PASSWORD),
  ("MQTT_SERVER", .str MQTT_SERVER),
  ("MQTT_PORT", .int MQTT_PORT),
  ("MQTT_USER", .str MQTT_USER),
  ("MQTT_PASSWORD", .str MQTT_PASSWORD),
  ("DEVICE_ID", .str DEVICE_ID),
  ("BARN_ID", .str BARN_ID),
  ("MQ4_PIN", .int MQ4_PIN),
  ("MQ135_PIN", .int MQ135_PIN),
  ("MQ137_PIN", .int MQ137_PIN),
  ("DHT_PIN", .int DHT_PIN),
  ("RFID_SDA_PIN", .int RFID_SDA_PIN),
  ("RFID_RST_PIN", .int RFID_RST_PIN),
  ("RFID_SCK_PIN", .int RFID_SCK_PIN),
  ("RFID_MOSI_PIN", .int RFID_MOSI_PIN),
  ("RFID_MISO_PIN", .int RFID_MISO_PIN),
  ("LED_GREEN_PIN", .int LED_GREEN_PIN),
  ("LED_RED_PIN", .int LED_RED_PIN),
  ("BUZZER_PIN", .int BUZZER_PIN),
  ("READING_INTERVAL", .int READING_INTERVAL),
  ("HEARTBEAT_INTERVAL", .int HEARTBEAT_INTERVAL),
  ("RECONNECT_DELAY", .int RECONNECT_DELAY),
  ("MQ4_R0", .real 100 1),
  ("MQ135_R0", .real 100 1),
  ("MQ137_R0", .real 100 1),
  ("DEBUG_MODE", .bool DEBUG_MODE),
  ("NTP_SERVER", .str NTP_SERVER),
  ("GMT_OFFSET_SEC", .int GMT_OFFSET_SEC),
  ("DAYLIGHT_OFFSET_SEC", .int DAYLIGHT_OFFSET_SEC),
  ("WATCHDOG_TIMEOUT", .int WATCHDOG_TIMEOUT),
  ("MQTT_QOS_SENSOR", .int MQTT_QOS_SENSOR),
  ("MQTT_QOS_STATUS", .int MQTT_QOS_STATUS),
  ("MQTT_QOS_HEARTBEAT", .int MQTT_QOS_HEARTBEAT),
  ("JSON_BUFFER_SIZE", .int JSON_BUFFER_SIZE),
  ("MQTT_BUFFER_SIZE", .int MQTT_BUFFER_SIZE)
]

/-- The `#define` directives of the header with their source lines, in
source order. -/
def headerDefines : List MacroDef := [
  ⟨10, "CONFIG_H", ""⟩,
  ⟨15, "WIFI_SSID", "\"YOUR_WIFI_SSID\""⟩,
  ⟨16, "WIFI_PASSWORD", "\"YOUR_WIFI_PASSWORD\""⟩,
  ⟨21, "MQTT_SERVER", "\"192.168.1.100\""⟩,
  ⟨22, "MQTT_PORT", "1883"⟩,
  ⟨23, "MQTT_USER", "\"\""⟩,
  ⟨24, "MQTT_PASSWORD", "\"\""⟩,
  ⟨30, "DEVICE_ID", "\"GAS-001\""⟩,
  ⟨31, "BARN_ID", "\"BARN-001\""⟩,
  ⟨40, "MQ4_PIN", "34"⟩,
  ⟨41, "MQ135_PIN", "35"⟩,
  ⟨42, "MQ137_PIN", "32"⟩,
  ⟨43, "DHT_PIN", "4"⟩,
  ⟨48, "RFID_SDA_PIN", "21"⟩,
  ⟨49, "RFID_RST_PIN", "22"⟩,
  ⟨50, "RFID_SCK_PIN", "18"⟩,
  ⟨51, "RFID_MOSI_PIN", "23"⟩,
  ⟨52, "RFID_MISO_PIN", "19"⟩,
  ⟨55, "LED_GREEN_PIN", "25"⟩,
  ⟨56, "LED_RED_PIN", "26"⟩,
  ⟨57, "BUZZER_PIN", "27"⟩,
  ⟨62, "READING_INTERVAL", "10000"⟩,
  ⟨63, "HEARTBEAT_INTERVAL", "30000"⟩,
  ⟨64, "RECONNECT_DELAY", "5000"⟩,
  ⟨71, "MQ4_R0", "10.0"⟩,
  ⟨72, "MQ135_R0", "10.0"⟩,
  ⟨73, "MQ137_R0", "10.0"⟩,
  ⟨79, "DEBUG_MODE", "true"⟩,
  ⟨82, "NTP_SERVER", "\"pool.ntp.org\""⟩,
  ⟨83, "GMT_OFFSET_SEC", "0"⟩,
  ⟨84, "DAYLIGHT_OFFSET_SEC", "0"⟩,
  ⟨87, "WATCHDOG_TIMEOUT", "60000"⟩,
  ⟨90, "MQTT_QOS_SENSOR", "1"⟩,
  ⟨91, "MQTT_QOS_STATUS", "1"⟩,
  ⟨92, "MQTT_QOS_HEARTBEAT", "0"⟩,
  ⟨95, "JSON_BUFFER_SIZE", "512"⟩,
  ⟨96, "MQTT_BUFFER_SIZE", "512"⟩
]

/-! ## Groups of constants -/

/-- The names of the twelve pin macros of the header, in source order. -/
def pinNames : List String :=
  ["MQ4_PIN", "MQ135_PIN", "MQ137_PIN", "DHT_PIN",
   "RFID_SDA_PIN", "RFID_RST_PIN", "RFID_SCK_PIN", "RFID_MOSI_PIN", "RFID_MISO_PIN",
   "LED_GREEN_PIN", "LED_RED_PIN", "BUZZER_PIN"]

/-- The analog gas-sensor pins. -/
def gasSensorPins : List Int := [MQ4_PIN, MQ135_PIN, MQ137_PIN]

/-- The pins of the gas-sensor variant (section "Gas Sensor Pin
Configuration"). -/
def gasVariantPins : List Int := [MQ4_PIN, MQ135_PIN, MQ137_PIN, DHT_PIN]

/-- The pins of the RFID-reader variant (section "RFID Reader Pin
Configuration", with its LED and buzzer pins). -/
def rfidVariantPins : List Int :=
  [RFID_SDA_PIN, RFID_RST_PIN, RFID_SCK_PIN, RFID_MOSI_PIN, RFID_MISO_PIN,
   LED_GREEN_PIN, LED_RED_PIN, BUZZER_PIN]

/-- All twelve pin constants of the header, in source order. -/
def allPins : List Int :=
  [MQ4_PIN, MQ135_PIN, MQ137_PIN, DHT_PIN,
   RFID_SDA_PIN, RFID_RST_PIN, RFID_SCK_PIN, RFID_MOSI_PIN, RFID_MISO_PIN,
   LED_GREEN_PIN, LED_RED_PIN, BUZZER_PIN]

/-- The pins the firmware drives: the indicators, the RFID pins the ESP32
drives (chip select, reset, clock, MOSI) and the bidirectional DHT22 data
pin. -/
def drivenPins : List Int :=
  [LED_GREEN_PIN, LED_RED_PIN, BUZZER_PIN,
   RFID_SDA_PIN, RFID_RST_PIN, RFID_SCK_PIN, RFID_MOSI_PIN, DHT_PIN]

/-- The durations of the header, in milliseconds. -/
def durations : List Int :=
  [READING_INTERVAL, HEARTBEAT_INTERVAL, RECONNECT_DELAY, WATCHDOG_TIMEOUT]

/-- The three messaging quality-of-service levels of the header. -/
def qosLevels : List Int := [MQTT_QOS_SENSOR, MQTT_QOS_STATUS, MQTT_QOS_HEARTBEAT]

/-- The two buffer sizes of the header, in bytes. -/
def bufferSizes : List Int := [JSON_BUFFER_SIZE, MQTT_BUFFER_SIZE]

/-! ## The target part and the data model

Facts about the ESP32 and about the specification that the header relies on
but does not contain. -/

/-- Modelled from the spec: the ADC1 channel table of the ESP32, which the
repository does not contain: the GPIO of ADC1 channels 0 to 7 is 36, 37, 38,
39, 32, 33, 34, 35. -/
def adc1ChannelGpio : List Int := [36, 37, 38, 39, 32, 33, 34, 35]

/-- Modelled from the spec: the ADC2 channel table of the ESP32, the other
half of the ADC-capable GPIO set of the target part (§8 item 3), which the
repository does not contain: the GPIO of ADC2 channels 0 to 9 is 4, 0, 2, 15,
13, 12, 14, 27, 25, 26. -/
def adc2ChannelGpio : List Int := [4, 0, 2, 15, 13, 12, 14, 27, 25, 26]

/-- Modelled from the spec: the ADC-capable GPIO set of the target part, the
pins of ADC1 and of ADC2. -/
@[reducible] def adcCapable (p : Int) : Prop := p ∈ adc1ChannelGpio ∨ p ∈ adc2ChannelGpio

/-- Modelled from the spec: the default pins (SCK, MISO, MOSI) of the VSPI
peripheral of the ESP32, which the repository does not contain. -/
def vspiPins : Int × Int × Int := (18, 19, 23)

/-- Modelled from the spec: the default pins (SCK, MISO, MOSI) of the HSPI
peripheral of the ESP32, which the repository does not contain. -/
def hspiPins : Int × Int × Int := (14, 12, 13)

/-- Modelled from the spec: the input-only pins of the ESP32, GPIO 34 to 39. -/
@[reducible] def inputOnly (p : Int) : Prop := 34 ≤ p ∧ p ≤ 39

/-- Modelled from the spec: the pins of the ESP32 wired to the module flash,
GPIO 6 to 11. -/
@[reducible] def flashReserved (p : Int) : Prop := 6 ≤ p ∧ p ≤ 11

/-- Modelled from the spec: the placeholder SSID of the template (§6, §8
item 7). -/
def PLACEHOLDER_SSID : String := "YOUR_WIFI_SSID"

/-- Modelled from the spec: the placeholder passphrase of the template (§6,
§8 item 7). -/
def PLACEHOLDER_PASSWORD : String := "YOUR_WIFI_PASSWORD"

/-- A finding of the placeholder check. -/
inductive Finding where
  /-- The SSID is the placeholder of the template. -/
  | placeholderSsid
  /-- The passphrase is the placeholder of the template. -/
  | placeholderPassphrase
  deriving DecidableEq, Repr

/-- Modelled from the spec: the placeholder check of the configuration
validator (§8 item 7), which the repository does not contain: it reports each
credential that still has its template value. -/
def placeholderCheck (ssid password : String) : List Finding :=
  (if ssid = PLACEHOLDER_SSID then [Finding.placeholderSsid] else [])
    ++ (if password = PLACEHOLDER_PASSWORD then [Finding.placeholderPassphrase] else [])

/-- Modelled from the spec: the fields of the data model (§3), by the macro
names the header gives them, in the order of the table. -/
def dataModelFields : List String := [
  "WIFI_SSID", "WIFI_PASSWORD",
  "MQTT_SERVER", "MQTT_PORT", "MQTT_USER", "MQTT_PASSWORD",
  "DEVICE_ID", "BARN_ID",
  "MQ4_PIN", "MQ135_PIN", "MQ137_PIN", "DHT_PIN",
  "RFID_SDA_PIN", "RFID_RST_PIN", "RFID_SCK_PIN", "RFID_MOSI_PIN", "RFID_MISO_PIN",
  "LED_GREEN_PIN", "LED_RED_PIN", "BUZZER_PIN",
  "READING_INTERVAL", "HEARTBEAT_INTERVAL", "RECONNECT_DELAY", "WATCHDOG_TIMEOUT",
  "MQ4_R0", "MQ135_R0", "MQ137_R0",
  "DEBUG_MODE", "NTP_SERVER", "GMT_OFFSET_SEC", "DAYLIGHT_OFFSET_SEC",
  "MQTT_QOS_SENSOR", "MQTT_QOS_STATUS", "MQTT_QOS_HEARTBEAT",
  "JSON_BUFFER_SIZE", "MQTT_BUFFER_SIZE"
]

/-! ## What the preprocessor reads from the header -/

/-- Preprocessing the header succeeds and executes exactly the `#define`
directives listed in `headerDefines`. -/
theorem config_h_defines : activeDefines config_h = some headerDefines := by
  decide!

/-- The constants of this file are the constants the header defines. -/
theorem config_h_values : configValues config_h = some configTable := by
  unfold configValues
  rw [config_h_defines]
  decide!

/-- Looking a macro up in the header is looking it up in `configTable`. -/
theorem macroValue_config_h (name : String) :
    macroValue config_h name
      = (configTable.find? fun p => p.1 = name).map Prod.snd := by
  unfold macroValue
  rw [config_h_values]
  rfl

/-- The calibration constants are the floating constant `10.0`. -/
theorem calibration_values :
    decimal 100 1 = MQ4_R0 ∧ decimal 100 1 = MQ135_R0 ∧ decimal 100 1 = MQ137_R0 := by
  unfold decimal MQ4_R0 MQ135_R0 MQ137_R0
  norm_num

/-- The include guard works: in a translation unit that has already included
the header, including it again succeeds and executes no `#define`. -/
theorem include_guard_second_inclusion :
    (preprocess headerDefines config_h).map PPState.defines = some [] := by
  decide!

/-- The commented-out `BARN_ID` of the RFID-reader block (line 35) is inert
only because it is commented out: with the comment opener removed the header
defines `BARN_ID` twice, on lines 31 and 35. -/
theorem uncommented_barn_id_defined_twice :
    (activeDefines (editLine uncomment 35 config_h)).map
        (fun ds => (ds.filter fun d => d.name = "BARN_ID").map MacroDef.line)
      = some [31, 35] := by
  decide!

/-- With the comment opener of line 34 removed the header redefines
`DEVICE_ID` with a different replacement list, a translation error. -/
theorem uncommented_device_id_rejected :
    activeDefines (editLine uncomment 34 config_h) = none := by
  decide!

/-- Every integer constant of the header fits the 32-bit `int` of the ESP32. -/
theorem int_constants_in_range :
    ∀ p ∈ configTable, ∀ n, p.2 = Value.int n → 0 ≤ n ∧ n < 2 ^ 31 := by
  intro p hp n hn
  have hall : configTable.all (fun q =>
      match q.2 with
      | .int m => decide (0 ≤ m ∧ m < 2 ^ 31)
      | _ => true) = true := by decide
  have hq := List.all_eq_true.mp hall p hp
  rw [hn] at hq
  exact of_decide_eq_true hq

/-! ## The claims -/

/-- C1: all pin indices of the active configuration are pairwise distinct.
The macros of the header whose name ends in `_PIN` are exactly the twelve pin
constants `MQ4_PIN` ... `BUZZER_PIN`; their twelve values contain no repeated
GPIO number, and so neither do the pins of the gas-sensor variant nor those of
the RFID-reader variant, which together make up the twelve. -/
theorem pins_pairwise_distinct :
    pinValues config_h = some (pinNames.zip (allPins.map Value.int)) ∧
    allPins.length = 12 ∧
    allPins.Nodup ∧
    gasVariantPins ++ rfidVariantPins = allPins ∧
    gasVariantPins.Nodup ∧
    rfidVariantPins.Nodup := by
  refine ⟨?_, by decide, by decide, by decide, by decide, by decide⟩
  unfold pinValues
  rw [config_h_values]
  decide

/-- C2: given the template as shipped, a validator that rejects the
placeholder credentials reports both of them.  The header defines `WIFI_SSID`
as exactly "YOUR_WIFI_SSID" and `WIFI_PASSWORD` as exactly
"YOUR_WIFI_PASSWORD"; hence every validator that reports a finding for the
placeholder SSID and a finding for the placeholder passphrase reports both
findings on the configuration of the header. -/
theorem placeholder_credentials_reported {F : Type}
    (validate : String → String → List F) (ssidFinding passFinding : F)
    (hssid : ∀ ssid pw, ssid = PLACEHOLDER_SSID → ssidFinding ∈ validate ssid pw)
    (hpass : ∀ ssid pw, pw = PLACEHOLDER_PASSWORD → passFinding ∈ validate ssid pw) :
    definesStrings config_h ["WIFI_SSID", "WIFI_PASSWORD"] [WIFI_SSID, WIFI_PASSWORD] ∧
    WIFI_SSID = "YOUR_WIFI_SSID" ∧
    WIFI_PASSWORD = "YOUR_WIFI_PASSWORD" ∧
    ssidFinding ∈ validate WIFI_SSID WIFI_PASSWORD ∧
    passFinding ∈ validate WIFI_SSID WIFI_PASSWORD := by
  refine ⟨?_, rfl, rfl, hssid _ _ rfl, hpass _ _ rfl⟩
  simp only [definesStrings, List.map, macroValue_config_h]
  decide

/-- The placeholder check of the specification, run on the credentials of the
header, satisfies the hypotheses of C2 and reports both placeholders. -/
theorem placeholder_credentials_reported_witness :
    (∀ ssid pw, ssid = PLACEHOLDER_SSID →
      Finding.placeholderSsid ∈ placeholderCheck ssid pw) ∧
    (∀ ssid pw, pw = PLACEHOLDER_PASSWORD →
      Finding.placeholderPassphrase ∈ placeholderCheck ssid pw) ∧
    placeholderCheck WIFI_SSID WIFI_PASSWORD
      = [Finding.placeholderSsid, Finding.placeholderPassphrase] ∧
    (definesStrings config_h ["WIFI_SSID", "WIFI_PASSWORD"] [WIFI_SSID, WIFI_PASSWORD] ∧
      WIFI_SSID = "YOUR_WIFI_SSID" ∧
      WIFI_PASSWORD = "YOUR_WIFI_PASSWORD" ∧
      Finding.placeholderSsid ∈ placeholderCheck WIFI_SSID WIFI_PASSWORD ∧
      Finding.placeholderPassphrase ∈ placeholderCheck WIFI_SSID WIFI_PASSWORD) :=
  have h1 : ∀ ssid pw, ssid = PLACEHOLDER_SSID →
      Finding.placeholderSsid ∈ placeholderCheck ssid pw := by
    intro ssid pw h
    simp [placeholderCheck, h]
  have h2 : ∀ ssid pw, pw = PLACEHOLDER_PASSWORD →
      Finding.placeholderPassphrase ∈ placeholderCheck ssid pw := by
    intro ssid pw h
    simp [placeholderCheck, h]
  ⟨h1, h2, by decide,
    placeholder_credentials_reported placeholderCheck
      Finding.placeholderSsid Finding.placeholderPassphrase h1 h2⟩

/-- C3: every field of the data model is defined exactly once in the active
configuration.  Preprocessing the header succeeds; the names of the executed
`#define` directives other than the include guard `CONFIG_H` are exactly the
36 fields of the data model, in another order, and contain no duplicate, so each field has
exactly one definition.  Exactly one identity block is active: the gas-sensor
block (lines 29 to 31) defines `DEVICE_ID` as "GAS-001" and `BARN_ID` as
"BARN-001", and the RFID-reader block (lines 33 to 35, its two `#define`
lines commented out) contributes no definition. -/
theorem fields_defined_exactly_once :
    ∃ ds, activeDefines config_h = some ds ∧
      ((ds.map MacroDef.name).filter (fun n => n ≠ "CONFIG_H")).Perm dataModelFields ∧
      dataModelFields.length = 36 ∧
      ((ds.map MacroDef.name).filter (fun n => n ≠ "CONFIG_H")).Nodup ∧
      (∀ f ∈ dataModelFields, (ds.filter fun d => d.name = f).length = 1) ∧
      definesBetween ds 29 31
        = [⟨30, "DEVICE_ID", "\"GAS-001\""⟩, ⟨31, "BARN_ID", "\"BARN-001\""⟩] ∧
      (config_h.drop 32).take 3
        = ["// RFID Reader Device",
           "// #define DEVICE_ID \"RFID-READER-001\"",
           "// #define BARN_ID \"BARN-001\""] ∧
      definesBetween ds 33 35 = [] ∧
      definesStrings config_h ["DEVICE_ID", "BARN_ID"] [DEVICE_ID, BARN_ID] ∧
      DEVICE_ID = "GAS-001" ∧
      BARN_ID = "BARN-001" := by
  refine ⟨headerDefines, config_h_defines, by decide, by decide, by decide,
    by decide, by decide, by decide, by decide, ?_, rfl, rfl⟩
  simp only [definesStrings, List.map, macroValue_config_h]
  decide

/-- C4: every gas-sensor pin belongs to the ADC-capable GPIO set of the ESP32,
and to its ADC1 set (GPIO 32 to 39), on the channel the header documents:
`MQ4_PIN` is GPIO 34, documented and wired as ADC1 channel 6; `MQ135_PIN` is
GPIO 35, ADC1 channel 7; `MQ137_PIN` is GPIO 32, ADC1 channel 4. -/
theorem gas_pins_adc_capable :
    definesInts config_h ["MQ4_PIN", "MQ135_PIN", "MQ137_PIN"] gasSensorPins ∧
    (∀ p ∈ gasSensorPins, adcCapable p ∧ p ∈ adc1ChannelGpio ∧ 32 ≤ p ∧ p ≤ 39) ∧
    (MQ4_PIN = 34 ∧ documentedAdc1Channel config_h "MQ4_PIN" = some 6
      ∧ adc1ChannelGpio[6]? = some MQ4_PIN) ∧
    (MQ135_PIN = 35 ∧ documentedAdc1Channel config_h "MQ135_PIN" = some 7
      ∧ adc1ChannelGpio[7]? = some MQ135_PIN) ∧
    (MQ137_PIN = 32 ∧ documentedAdc1Channel config_h "MQ137_PIN" = some 4
      ∧ adc1ChannelGpio[4]? = some MQ137_PIN) := by
  have hdoc : ∀ name, documentedAdc1Channel config_h name
      = (headerDefines.find? fun d => d.name = name).bind fun d =>
          config_h[d.line - 1]?.bind fun l =>
          (afterInfix "ADC1_CH".data l.data).bind fun r =>
            if r.takeWhile Char.isDigit = [] then none
            else digitsValue 0 (r.takeWhile Char.isDigit) := by
    intro name
    unfold documentedAdc1Channel
    rw [config_h_defines]
    rfl
  refine ⟨?_, by decide, ⟨rfl, ?_, by decide⟩, ⟨rfl, ?_, by decide⟩,
    ⟨rfl, ?_, by decide⟩⟩
  · simp only [definesInts, List.map, macroValue_config_h]
    decide
  · rw [hdoc]; decide!
  · rw [hdoc]; decide!
  · rw [hdoc]; decide!

/-- C5: all durations are strictly positive and the watchdog timeout is
strictly greater than the reading interval: `READING_INTERVAL`,
`HEARTBEAT_INTERVAL`, `RECONNECT_DELAY` and `WATCHDOG_TIMEOUT` are each more
than 0 milliseconds, and `WATCHDOG_TIMEOUT > READING_INTERVAL`. -/
theorem durations_positive_watchdog_longer :
    definesInts config_h
      ["READING_INTERVAL", "HEARTBEAT_INTERVAL", "RECONNECT_DELAY", "WATCHDOG_TIMEOUT"]
      durations ∧
    0 < READING_INTERVAL ∧
    0 < HEARTBEAT_INTERVAL ∧
    0 < RECONNECT_DELAY ∧
    0 < WATCHDOG_TIMEOUT ∧
    WATCHDOG_TIMEOUT > READING_INTERVAL := by
  refine ⟨?_, by decide, by decide, by decide, by decide, by decide⟩
  simp only [definesInts, List.map, macroValue_config_h]
  decide

/-- C6: every messaging quality-of-service level is a valid QoS value:
`MQTT_QOS_SENSOR`, `MQTT_QOS_STATUS` and `MQTT_QOS_HEARTBEAT` are each one of
0, 1 and 2. -/
theorem qos_levels_valid :
    definesInts config_h
      ["MQTT_QOS_SENSOR", "MQTT_QOS_STATUS", "MQTT_QOS_HEARTBEAT"] qosLevels ∧
    MQTT_QOS_SENSOR ∈ [(0 : Int), 1, 2] ∧
    MQTT_QOS_STATUS ∈ [(0 : Int), 1, 2] ∧
    MQTT_QOS_HEARTBEAT ∈ [(0 : Int), 1, 2] := by
  refine ⟨?_, by decide, by decide, by decide⟩
  simp only [definesInts, List.map, macroValue_config_h]
  decide

/-- C7: both buffer sizes meet the documented lower bound: `JSON_BUFFER_SIZE`
and `MQTT_BUFFER_SIZE` are positive integer byte counts, each at least 256. -/
theorem buffer_sizes_at_least_256 :
    definesInts config_h ["JSON_BUFFER_SIZE", "MQTT_BUFFER_SIZE"] bufferSizes ∧
    0 < JSON_BUFFER_SIZE ∧ 256 ≤ JSON_BUFFER_SIZE ∧
    0 < MQTT_BUFFER_SIZE ∧ 256 ≤ MQTT_BUFFER_SIZE := by
  refine ⟨?_, by decide, by decide, by decide, by decide⟩
  simp only [definesInts, List.map, macroValue_config_h]
  decide

/-- C8: the reading interval is at least 1000 ms and the heartbeat interval is
at least the reading interval: `READING_INTERVAL >= 1000` and
`HEARTBEAT_INTERVAL >= READING_INTERVAL`. -/
theorem reading_interval_bounds :
    definesInts config_h ["READING_INTERVAL", "HEARTBEAT_INTERVAL"]
      [READING_INTERVAL, HEARTBEAT_INTERVAL] ∧
    READING_INTERVAL ≥ 1000 ∧
    HEARTBEAT_INTERVAL ≥ READING_INTERVAL := by
  refine ⟨?_, by decide, by decide⟩
  simp only [definesInts, List.map, macroValue_config_h]
  decide

/-- C9: the RFID SPI pins match a supported hardware SPI peripheral of the
ESP32: the triple (`RFID_SCK_PIN`, `RFID_MISO_PIN`, `RFID_MOSI_PIN`) equals
the VSPI default pins or the HSPI default pins (it is the VSPI triple
(18, 19, 23)), and neither the chip select `RFID_SDA_PIN` nor the reset
`RFID_RST_PIN` is one of those three bus pins. -/
theorem rfid_spi_pins_match_peripheral :
    definesInts config_h
      ["RFID_SDA_PIN", "RFID_RST_PIN", "RFID_SCK_PIN", "RFID_MOSI_PIN", "RFID_MISO_PIN"]
      [RFID_SDA_PIN, RFID_RST_PIN, RFID_SCK_PIN, RFID_MOSI_PIN, RFID_MISO_PIN] ∧
    ((RFID_SCK_PIN, RFID_MISO_PIN, RFID_MOSI_PIN) = vspiPins
      ∨ (RFID_SCK_PIN, RFID_MISO_PIN, RFID_MOSI_PIN) = hspiPins) ∧
    (RFID_SCK_PIN, RFID_MISO_PIN, RFID_MOSI_PIN) = ((18 : Int), (19 : Int), (23 : Int)) ∧
    RFID_SDA_PIN ∉ [RFID_SCK_PIN, RFID_MISO_PIN, RFID_MOSI_PIN] ∧
    RFID_RST_PIN ∉ [RFID_SCK_PIN, RFID_MISO_PIN, RFID_MOSI_PIN] := by
  refine ⟨?_, by decide, by decide, by decide, by decide⟩
  simp only [definesInts, List.map, macroValue_config_h]
  decide

/-- C10: every pin the firmware drives as an output is digital-output capable
on the ESP32: `LED_GREEN_PIN`, `LED_RED_PIN`, `BUZZER_PIN`, `RFID_SDA_PIN`,
`RFID_RST_PIN`, `RFID_SCK_PIN`, `RFID_MOSI_PIN` and the bidirectional
`DHT_PIN` are GPIO indices in 0..33, none in the input-only range 34 to 39 and
none one of the flash pins 6 to 11. -/
theorem driven_pins_output_capable :
    definesInts config_h
      ["LED_GREEN_PIN", "LED_RED_PIN", "BUZZER_PIN", "RFID_SDA_PIN", "RFID_RST_PIN",
       "RFID_SCK_PIN", "RFID_MOSI_PIN", "DHT_PIN"]
      drivenPins ∧
    (∀ p ∈ drivenPins, 0 ≤ p ∧ p ≤ 33 ∧ ¬ inputOnly p ∧ ¬ flashReserved p) := by
  refine ⟨?_, by decide⟩
  simp only [definesInts, List.map, macroValue_config_h]
  decide

end SmartFarm
